import Mathlib

/-!
# Verification of the `useBankDetails` hook and the `PaymentSummary` component

A shallow embedding of `src/hooks/useBankDetails.tsx` and of the
`PaymentSummary` presentational component of the carehomeconnect repository.

The hook manages one user's bank-details record against a remote row store
(Supabase).  We embed:

* the persisted record (`BankDetails`), the hook's local state (`HookState`)
  and the remote table (`Db`);
* each operation (`fetchBankDetails`, `saveBankDetails`, `deleteBankDetails`,
  and the `useEffect` reaction to a `userId` change) as a pure function from
  the local state, the remote table and the outcomes of the awaited remote
  calls to the new local state, the new table, the list of toast
  notifications emitted and the list of remote calls issued;
* each awaited Supabase call's outcome as a `Fault` parameter: `ok` means the
  promise resolves and the table's semantics apply, `err c` means it resolves
  to `{ data: null, error: { code: c } }`, and `thrown` means the promise
  rejects (caught by the surrounding `try/catch`).

All operations in the source catch every rejection, so the embedded
operations are total functions; "the error is not re-thrown" is reflected by
the functions returning ordinary results on every fault.
-/

set_option autoImplicit false

namespace CareHomeConnect

/-- A persisted bank-details row (`BankDetails` of `@/types/bank`).  The
`id` is assigned by the remote store on insert; `use_for_both` is read by the
hook as `data.use_for_both || false`, so we keep it optional. -/
structure BankDetails where
  id : Nat
  user_id : String
  account_name : String
  account_number : String
  routing_number : String
  bank_name : String
  use_for_both : Option Bool
deriving DecidableEq, Repr

/-- The hook's local React state: `bankDetails`, `isProcessing`,
`useForBoth`. -/
structure HookState where
  bankDetails : Option BankDetails
  isProcessing : Bool
  useForBoth : Bool
deriving DecidableEq, Repr

/-- The remote `bank_details` table: its rows, plus the next fresh id the
store will assign on insert. -/
structure Db where
  rows : List BankDetails
  nextId : Nat
deriving DecidableEq, Repr

/-- The field set written by `saveBankDetails` (`bankPayload` in the
source). -/
structure BankPayload where
  account_name : String
  account_number : String
  routing_number : String
  bank_name : String
  use_for_both : Bool
deriving DecidableEq, Repr

/-- The form values accepted by `saveBankDetails` (`BankFormValues`). -/
structure BankFormValues where
  accountName : String
  accountNumber : String
  routingNumber : String
  bankName : String
deriving DecidableEq, Repr

/-- One remote call issued by the hook, with the scoping the source attaches
through the `.eq(...)` filters. -/
inductive RemoteCall where
  | selectByUser (userId : String)
  | insertRow (userId : String) (payload : BankPayload)
  | updateRow (id : Nat) (userId : String) (payload : BankPayload)
  | deleteRow (id : Nat) (userId : String)
deriving DecidableEq, Repr

/-- A toast notification as the hook emits it. -/
structure Toast where
  title : String
  description : String
  variant : Option String
  icon : Option String
deriving DecidableEq, Repr

/-- Outcome of one awaited Supabase call: `ok` resolves per the table's
semantics, `err c` resolves with error code `c` (and null data), `thrown`
rejects. -/
inductive Fault where
  | ok
  | err (code : String)
  | thrown
deriving DecidableEq, Repr

/-- The toast shown when `fetchBankDetails` hits a non-`PGRST116` error or a
rejection. -/
def fetchErrorToast : Toast :=
  ⟨"Error loading data",
   "Could not load your bank information. Please try again later.",
   some "destructive", none⟩

/-- The toast shown when `saveBankDetails` succeeds. -/
def saveSuccessToast : Toast :=
  ⟨"Banking details updated",
   "Your banking information has been saved securely",
   none, some "shield-check"⟩

/-- The toast shown when `saveBankDetails` fails. -/
def saveErrorToast : Toast :=
  ⟨"Error", "Failed to update banking information. Please try again.",
   some "destructive", none⟩

/-- The toast shown when `deleteBankDetails` succeeds. -/
def deleteSuccessToast : Toast :=
  ⟨"Banking details removed",
   "Your banking information has been removed successfully",
   none, some "check"⟩

/-- The toast shown when `deleteBankDetails` fails. -/
def deleteErrorToast : Toast :=
  ⟨"Error", "Failed to remove banking information. Please try again.",
   some "destructive", none⟩

/-- `select().eq("user_id", userId).maybeSingle()` on a resolving call:
the row for `userId`, if any. -/
def dbFind (db : Db) (userId : String) : Option BankDetails :=
  db.rows.find? (fun r => r.user_id = userId)

/-- `insert({ user_id: userId, ...bankPayload })`: the store appends a fresh
row with the next id. -/
def dbInsert (db : Db) (userId : String) (p : BankPayload) : Db :=
  { rows := db.rows ++
      [⟨db.nextId, userId, p.account_name, p.account_number,
        p.routing_number, p.bank_name, some p.use_for_both⟩],
    nextId := db.nextId + 1 }

/-- Effect of `update(bankPayload).eq("id", id).eq("user_id", userId)` on a
single row: rewrite the payload fields when both filters match. -/
def applyRowUpdate (id : Nat) (userId : String) (p : BankPayload)
    (r : BankDetails) : BankDetails :=
  if r.id = id ∧ r.user_id = userId then
    { r with account_name := p.account_name,
             account_number := p.account_number,
             routing_number := p.routing_number,
             bank_name := p.bank_name,
             use_for_both := some p.use_for_both }
  else r

/-- `update(bankPayload).eq("id", id).eq("user_id", userId)`: rewrite the
payload fields of every row matching both filters. -/
def dbUpdate (db : Db) (id : Nat) (userId : String) (p : BankPayload) : Db :=
  { db with rows := db.rows.map (applyRowUpdate id userId p) }

/-- `delete().eq("id", id).eq("user_id", userId)`: drop every row matching
both filters. -/
def dbDelete (db : Db) (id : Nat) (userId : String) : Db :=
  { db with rows := db.rows.filter (fun r => ¬(r.id = id ∧ r.user_id = userId)) }

/-- Result of a completed `fetchBankDetails` run: the new local state, the
toasts emitted and the remote calls issued (a select never mutates the
table). -/
structure FetchResult where
  state : HookState
  toasts : List Toast
  calls : List RemoteCall
deriving DecidableEq, Repr

/-- `fetchBankDetails` of `useBankDetails.tsx`: guard on an empty `userId`;
one select by `user_id`; on a non-`PGRST116` error or a rejection, toast and
leave state alone; otherwise mirror the row (or its absence) into
`bankDetails` and `useForBoth`. -/
def fetchBankDetails (userId : String) (st : HookState) (db : Db)
    (f : Fault) : FetchResult :=
  if userId = "" then ⟨st, [], []⟩
  else
    let call := RemoteCall.selectByUser userId
    match f with
    | .thrown => ⟨st, [fetchErrorToast], [call]⟩
    | .err c =>
        if c = "PGRST116" then
          ⟨{ st with bankDetails := none, useForBoth := false }, [], [call]⟩
        else
          ⟨st, [fetchErrorToast], [call]⟩
    | .ok =>
        match dbFind db userId with
        | some d =>
            ⟨{ st with bankDetails := some d,
                       useForBoth := d.use_for_both.getD false }, [], [call]⟩
        | none =>
            ⟨{ st with bankDetails := none, useForBoth := false }, [], [call]⟩

/-- The `useEffect` with dependency `[userId]`: on a non-empty identity run
`fetchBankDetails`, on an empty one reset the state without a remote call. -/
def effectOnUserIdChange (userId : String) (st : HookState) (db : Db)
    (f : Fault) : FetchResult :=
  if userId = "" then
    ⟨{ st with bankDetails := none, useForBoth := false }, [], []⟩
  else
    fetchBankDetails userId st db f

/-- Result of a completed `saveBankDetails` run. -/
structure SaveResult where
  state : HookState
  db : Db
  toasts : List Toast
  calls : List RemoteCall
  ret : Bool
deriving DecidableEq, Repr

/-- `bankPayload` as built in `saveBankDetails`: the four form fields plus
the hook's current `useForBoth` flag. -/
def mkPayload (formData : BankFormValues) (useForBoth : Bool) : BankPayload :=
  ⟨formData.accountName, formData.accountNumber, formData.routingNumber,
   formData.bankName, useForBoth⟩

/-- The write step of `saveBankDetails`, after the existence lookup settled
`existingData`: update when an id was found, insert otherwise; on success
toast, re-run `fetchBankDetails`, return `true`; any write error or
rejection reaches the `catch`, which toasts and returns `false`; the
`finally` clears `isProcessing` on both paths. -/
def saveWriteStep (userId : String) (st : HookState) (db : Db)
    (payload : BankPayload) (existingData : Option BankDetails)
    (fWrite fRefetch : Fault) : SaveResult :=
  let writeCall : RemoteCall :=
    match existingData with
    | some r => .updateRow r.id userId payload
    | none => .insertRow userId payload
  match fWrite with
  | .ok =>
      let db' :=
        match existingData with
        | some r => dbUpdate db r.id userId payload
        | none => dbInsert db userId payload
      let fr := fetchBankDetails userId { st with isProcessing := true } db' fRefetch
      ⟨{ fr.state with isProcessing := false }, db',
       saveSuccessToast :: fr.toasts,
       RemoteCall.selectByUser userId :: writeCall :: fr.calls, true⟩
  | _ =>
      ⟨{ st with isProcessing := false }, db, [saveErrorToast],
       [RemoteCall.selectByUser userId, writeCall], false⟩

/-- `saveBankDetails` of `useBankDetails.tsx`: guard on an empty `userId`
(return `false` before any remote call); set `isProcessing`; look up an
existing record by `user_id`, treating `PGRST116` as "no record" and
throwing any other lookup error; then run the write step.  `fCheck`,
`fWrite` and `fRefetch` are the outcomes of the three awaited calls. -/
def saveBankDetails (userId : String) (formData : BankFormValues)
    (st : HookState) (db : Db) (fCheck fWrite fRefetch : Fault) : SaveResult :=
  if userId = "" then ⟨st, db, [], [], false⟩
  else
    let payload := mkPayload formData st.useForBoth
    match fCheck with
    | .thrown =>
        ⟨{ st with isProcessing := false }, db, [saveErrorToast],
         [RemoteCall.selectByUser userId], false⟩
    | .err c =>
        if c = "PGRST116" then
          saveWriteStep userId st db payload none fWrite fRefetch
        else
          ⟨{ st with isProcessing := false }, db, [saveErrorToast],
           [RemoteCall.selectByUser userId], false⟩
    | .ok => saveWriteStep userId st db payload (dbFind db userId) fWrite fRefetch

/-- Result of a completed `deleteBankDetails` run. -/
structure DeleteResult where
  state : HookState
  db : Db
  toasts : List Toast
  calls : List RemoteCall
  ret : Bool
deriving DecidableEq, Repr

/-- `deleteBankDetails` of `useBankDetails.tsx`: guard on an empty `userId`
or an absent local record (return `false` before any remote call); set
`isProcessing`; one delete scoped by the record's id and `userId`; on
success toast, clear `bankDetails` and `useForBoth` directly and return
`true`; on an error or rejection toast and return `false`; the `finally`
clears `isProcessing` on both paths. -/
def deleteBankDetails (userId : String) (st : HookState) (db : Db)
    (f : Fault) : DeleteResult :=
  if userId = "" then ⟨st, db, [], [], false⟩
  else
    match st.bankDetails with
    | none => ⟨st, db, [], [], false⟩
    | some r =>
        let call := RemoteCall.deleteRow r.id userId
        match f with
        | .ok =>
            ⟨{ st with bankDetails := none, useForBoth := false,
                       isProcessing := false },
             dbDelete db r.id userId, [deleteSuccessToast], [call], true⟩
        | _ =>
            ⟨{ st with isProcessing := false }, db, [deleteErrorToast],
             [call], false⟩

/-- One rendered amount in `PaymentSummary`: the currency glyph component
(`DollarSign`) next to the formatted text. -/
structure AmountDisplay where
  glyph : String
  text : String
deriving DecidableEq, Repr

/-- The rendered output of the `PaymentSummary` component: a title, a
labelled line item and a labelled total, each amount shown with the
currency glyph. -/
structure PaymentSummaryRender where
  title : String
  lineItemLabel : String
  lineItem : AmountDisplay
  totalLabel : String
  total : AmountDisplay
deriving DecidableEq, Repr

/-- The two low-order decimal digits of `n`, as a two-character string. -/
def twoDigits (n : Nat) : String :=
  String.mk [Char.ofNat (48 + n / 10 % 10), Char.ofNat (48 + n % 10)]

/-- JavaScript's `Number.prototype.toFixed(2)` over an exact rational
amount: round to the nearest hundredth and print with exactly two digits
after the decimal point. -/
def toFixed2 (q : ℚ) : String :=
  let c : Int := round (q * 100)
  let sign := if c < 0 then "-" else ""
  sign ++ toString (c.natAbs / 100) ++ "." ++ twoDigits (c.natAbs % 100)

/-- The `PaymentSummary` component of `src/unnamed/part_000`: a pure
function of its single `monthlyRate` prop, rendering
`monthlyRate.toFixed(2)` twice (line item and total), each next to the
`DollarSign` glyph.  The JS `number` prop is embedded as an exact
rational. -/
def PaymentSummary (monthlyRate : ℚ) : PaymentSummaryRender :=
  ⟨"Payment Summary",
   "Rent per month:", ⟨"DollarSign", toFixed2 monthlyRate⟩,
   "Total Rent Amount:", ⟨"DollarSign", toFixed2 monthlyRate⟩⟩

/-- The amounts a `PaymentSummaryRender` shows, in page order. -/
def renderedAmounts (r : PaymentSummaryRender) : List AmountDisplay :=
  [r.lineItem, r.total]

/-! ## Helper lemmas -/

/-- `fetchBankDetails` issues exactly one select on a non-empty `userId` and
no call at all on an empty one, whatever the outcome. -/
theorem fetch_calls (userId : String) (st : HookState) (db : Db) (f : Fault) :
    (fetchBankDetails userId st db f).calls
      = if userId = "" then [] else [RemoteCall.selectByUser userId] := by
  unfold fetchBankDetails
  by_cases hu : userId = ""
  · simp [hu]
  · cases f with
    | thrown => simp [hu]
    | err c => by_cases hc : c = "PGRST116" <;> simp [hu, hc]
    | ok => cases h : dbFind db userId <;> simp [hu, h]

/-- Updating a row never changes its owner. -/
theorem applyRowUpdate_user_id (id : Nat) (userId : String) (p : BankPayload)
    (r : BankDetails) : (applyRowUpdate id userId p r).user_id = r.user_id := by
  unfold applyRowUpdate
  split <;> rfl

/-- A remote update never changes how many rows a given user owns. -/
theorem dbUpdate_filter_length (db : Db) (id : Nat) (u v : String)
    (p : BankPayload) :
    ((dbUpdate db id u p).rows.filter (fun r => r.user_id = v)).length
      = (db.rows.filter (fun r => r.user_id = v)).length := by
  unfold dbUpdate
  dsimp only
  rw [List.filter_map]
  rw [List.filter_congr (fun r _ => ?_), List.length_map]
  simp [Function.comp, applyRowUpdate_user_id]

/-- If exactly the row `r` matches, `find?` returns `r`. -/
theorem find?_of_filter_singleton {α : Type} (p : α → Bool) (l : List α)
    (r : α) (h : l.filter p = [r]) : l.find? p = some r := by
  induction l with
  | nil => simp at h
  | cons a t ih =>
    by_cases ha : p a
    · rw [List.filter_cons_of_pos ha] at h
      obtain ⟨rfl, -⟩ := List.cons_eq_cons.mp h
      exact List.find?_cons_of_pos t ha
    · rw [List.filter_cons_of_neg ha] at h
      rw [List.find?_cons_of_neg t ha]
      exact ih h

/-! ## Claim theorems -/

/-- C10: `fetchBankDetails` leaves the `isProcessing` busy flag unchanged on
every path — empty `userId`, row found, no row, remote error, or thrown
exception; only `saveBankDetails` and `deleteBankDetails` touch it. -/
theorem fetch_preserves_isProcessing (userId : String) (st : HookState)
    (db : Db) (f : Fault) :
    (fetchBankDetails userId st db f).state.isProcessing = st.isProcessing := by
  unfold fetchBankDetails
  by_cases hu : userId = ""
  · simp [hu]
  · cases f with
    | thrown => simp [hu]
    | err c => by_cases hc : c = "PGRST116" <;> simp [hu, hc]
    | ok => cases h : dbFind db userId <;> simp [hu, h]

/-- C4: a `fetchBankDetails` call with a non-empty `userId` whose remote
query fails other than with the "no rows" code `PGRST116` (an error
resolution or a rejection) leaves the whole local state unmodified, emits
exactly one error notification, and returns normally rather than
re-throwing. -/
theorem fetch_error_leaves_state (userId : String) (st : HookState) (db : Db)
    (f : Fault) (h : userId ≠ "")
    (hf : f = Fault.thrown ∨ ∃ c, f = Fault.err c ∧ c ≠ "PGRST116") :
    (fetchBankDetails userId st db f).state = st ∧
    (fetchBankDetails userId st db f).toasts = [fetchErrorToast] := by
  rcases hf with rfl | ⟨c, rfl, hc⟩
  · simp [fetchBankDetails, h]
  · simp [fetchBankDetails, h, hc]

/-- C4 witness: a concrete failing fetch for user `"u"` with error code
`"500"`. -/
theorem fetch_error_leaves_state_witness :
    (fetchBankDetails "u" ⟨none, false, false⟩ ⟨[], 0⟩ (Fault.err "500")).state
        = ⟨none, false, false⟩ ∧
    (fetchBankDetails "u" ⟨none, false, false⟩ ⟨[], 0⟩
        (Fault.err "500")).toasts = [fetchErrorToast] :=
  fetch_error_leaves_state "u" ⟨none, false, false⟩ ⟨[], 0⟩ (Fault.err "500")
    (by decide) (Or.inr ⟨"500", rfl, by decide⟩)

/-- C5: every precondition failure — `fetch` or `save` with an empty
`userId`, `deleteRecord` with an empty `userId` or no locally known record —
short-circuits with no remote call, no notification, unchanged local state,
and (for `save` and `deleteRecord`) result `false`. -/
theorem precondition_short_circuit (st : HookState) (db : Db)
    (formData : BankFormValues) (f fCheck fWrite fRefetch : Fault)
    (userId : String) :
    fetchBankDetails "" st db f = ⟨st, [], []⟩ ∧
    saveBankDetails "" formData st db fCheck fWrite fRefetch
        = ⟨st, db, [], [], false⟩ ∧
    deleteBankDetails "" st db f = ⟨st, db, [], [], false⟩ ∧
    (st.bankDetails = none → deleteBankDetails userId st db f
        = ⟨st, db, [], [], false⟩) := by
  refine ⟨by simp [fetchBankDetails], by simp [saveBankDetails],
    by simp [deleteBankDetails], fun hb => ?_⟩
  unfold deleteBankDetails
  by_cases hu : userId = "" <;> simp [hu, hb]

/-- C5 witness: the four short-circuits at concrete inputs. -/
theorem precondition_short_circuit_witness :
    fetchBankDetails "" ⟨none, true, true⟩ ⟨[], 0⟩ Fault.ok
        = ⟨⟨none, true, true⟩, [], []⟩ ∧
    saveBankDetails "" ⟨"a", "b", "c", "d"⟩ ⟨none, true, true⟩ ⟨[], 0⟩
        Fault.ok Fault.ok Fault.ok = ⟨⟨none, true, true⟩, ⟨[], 0⟩, [], [], false⟩ ∧
    deleteBankDetails "" ⟨none, true, true⟩ ⟨[], 0⟩ Fault.ok
        = ⟨⟨none, true, true⟩, ⟨[], 0⟩, [], [], false⟩ ∧
    deleteBankDetails "u" ⟨none, true, true⟩ ⟨[], 0⟩ Fault.ok
        = ⟨⟨none, true, true⟩, ⟨[], 0⟩, [], [], false⟩ := by
  have h := precondition_short_circuit ⟨none, true, true⟩ ⟨[], 0⟩
    ⟨"a", "b", "c", "d"⟩ Fault.ok Fault.ok Fault.ok Fault.ok "u"
  exact ⟨h.1, h.2.1, h.2.2.1, h.2.2.2 rfl⟩

/-- C1 counterexample: with user A's record loaded, switching the active
identity to `"B"` while the new fetch fails (error code `"500"`) completes
the operation with local state still holding A's record — a stale record of
a previously-loaded user while B is the active identity. -/
theorem identity_switch_stale_record_cex :
    ((effectOnUserIdChange "B"
        ⟨some ⟨1, "A", "a", "b", "c", "d", some false⟩, false, false⟩
        ⟨[⟨1, "A", "a", "b", "c", "d", some false⟩], 2⟩
        (Fault.err "500")).state.bankDetails
      = some ⟨1, "A", "a", "b", "c", "d", some false⟩) ∧
    (⟨1, "A", "a", "b", "c", "d", some false⟩ : BankDetails).user_id ≠ "B" := by
  constructor
  · rfl
  · decide

/-- C1 amended: the stale-record reset is guaranteed only when the new fetch
resolves successfully — in that case (or when the new identity is empty) the
completed effect leaves either no record or a record owned by the new
`userId`; a failing fetch (as in the counterexample) keeps the previous
user's record. -/
theorem identity_switch_reset_on_success (userId : String) (st : HookState)
    (db : Db) (r : BankDetails)
    (h : (effectOnUserIdChange userId st db Fault.ok).state.bankDetails
        = some r) :
    r.user_id = userId := by
  unfold effectOnUserIdChange fetchBankDetails at h
  by_cases hu : userId = ""
  · simp [hu] at h
  · simp only [hu, if_neg, if_false] at h
    cases hf : dbFind db userId with
    | none => simp [hf] at h
    | some d =>
        simp [hf] at h
        have := List.find?_some hf
        simpa [← h] using this

/-- C1 amended witness: switching to `"B"` with a successful fetch yields
B's own record. -/
theorem identity_switch_reset_on_success_witness :
    (⟨2, "B", "a", "b", "c", "d", some true⟩ : BankDetails).user_id = "B" :=
  identity_switch_reset_on_success "B" ⟨none, false, false⟩
    ⟨[⟨2, "B", "a", "b", "c", "d", some true⟩], 3⟩
    ⟨2, "B", "a", "b", "c", "d", some true⟩ (by decide)

/-- C7: starting from a quiescent state, every completed `saveBankDetails`
or `deleteBankDetails` invocation — success, remote failure, or precondition
failure — finishes with `isProcessing = false`: the flag is set for the
remote work and cleared on every exit path. -/
theorem busy_flag_cleared (userId : String) (formData : BankFormValues)
    (st : HookState) (db : Db) (fCheck fWrite fRefetch fDel : Fault)
    (h : st.isProcessing = false) :
    (saveBankDetails userId formData st db fCheck
        fWrite fRefetch).state.isProcessing = false ∧
    (deleteBankDetails userId st db fDel).state.isProcessing = false := by
  constructor
  · unfold saveBankDetails saveWriteStep
    by_cases hu : userId = ""
    · simp [hu, h]
    · cases fCheck with
      | thrown => simp [hu]
      | err c => by_cases hc : c = "PGRST116" <;> cases fWrite <;> simp [hu, hc]
      | ok => cases fWrite <;> cases hf : dbFind db userId <;> simp [hu, hf]
  · unfold deleteBankDetails
    by_cases hu : userId = ""
    · simp [hu, h]
    · cases hb : st.bankDetails <;> cases fDel <;> simp [hu, hb, h]

/-- C7 witness: a concrete save (fresh user, all calls succeed) and a
concrete delete (precondition failure) both finish un-busy. -/
theorem busy_flag_cleared_witness :
    (saveBankDetails "u" ⟨"a", "b", "c", "d"⟩ ⟨none, false, false⟩ ⟨[], 0⟩
        Fault.ok Fault.ok Fault.ok).state.isProcessing = false ∧
    (deleteBankDetails "u" ⟨none, false, false⟩ ⟨[], 0⟩
        Fault.ok).state.isProcessing = false :=
  busy_flag_cleared "u" ⟨"a", "b", "c", "d"⟩ ⟨none, false, false⟩ ⟨[], 0⟩
    Fault.ok Fault.ok Fault.ok Fault.ok rfl

/-- C6: a `deleteBankDetails` invocation whose preconditions hold issues
exactly the one delete scoped by the record id and the `userId` (no
re-fetch); on success it clears the local record and flag, emits the
confirmation notification and returns `true`; on failure it emits the error
notification, leaves local state unchanged and returns `false`. -/
theorem delete_contract (userId : String) (st : HookState) (db : Db)
    (f : Fault) (r : BankDetails) (h : userId ≠ "")
    (hb : st.bankDetails = some r) :
    (deleteBankDetails userId st db f).calls
        = [RemoteCall.deleteRow r.id userId] ∧
    (f = Fault.ok →
      (deleteBankDetails userId st db f).state.bankDetails = none ∧
      (deleteBankDetails userId st db f).state.useForBoth = false ∧
      (deleteBankDetails userId st db f).toasts = [deleteSuccessToast] ∧
      (deleteBankDetails userId st db f).ret = true ∧
      (deleteBankDetails userId st db f).db = dbDelete db r.id userId) ∧
    (f ≠ Fault.ok →
      (deleteBankDetails userId st db f).toasts = [deleteErrorToast] ∧
      (deleteBankDetails userId st db f).ret = false ∧
      (deleteBankDetails userId st db f).state.bankDetails = st.bankDetails ∧
      (deleteBankDetails userId st db f).state.useForBoth = st.useForBoth ∧
      (deleteBankDetails userId st db f).db = db) := by
  unfold deleteBankDetails
  cases f <;> simp [h, hb]

/-- C6 witness: a concrete successful delete of user `"u"`'s record. -/
theorem delete_contract_witness :
    (deleteBankDetails "u"
        ⟨some ⟨5, "u", "a", "b", "c", "d", some true⟩, false, true⟩
        ⟨[⟨5, "u", "a", "b", "c", "d", some true⟩], 6⟩ Fault.ok).calls
        = [RemoteCall.deleteRow 5 "u"] ∧
    (Fault.ok = Fault.ok →
      (deleteBankDetails "u"
          ⟨some ⟨5, "u", "a", "b", "c", "d", some true⟩, false, true⟩
          ⟨[⟨5, "u", "a", "b", "c", "d", some true⟩], 6⟩
          Fault.ok).state.bankDetails = none ∧
      (deleteBankDetails "u"
          ⟨some ⟨5, "u", "a", "b", "c", "d", some true⟩, false, true⟩
          ⟨[⟨5, "u", "a", "b", "c", "d", some true⟩], 6⟩
          Fault.ok).state.useForBoth = false ∧
      (deleteBankDetails "u"
          ⟨some ⟨5, "u", "a", "b", "c", "d", some true⟩, false, true⟩
          ⟨[⟨5, "u", "a", "b", "c", "d", some true⟩], 6⟩
          Fault.ok).toasts = [deleteSuccessToast] ∧
      (deleteBankDetails "u"
          ⟨some ⟨5, "u", "a", "b", "c", "d", some true⟩, false, true⟩
          ⟨[⟨5, "u", "a", "b", "c", "d", some true⟩], 6⟩
          Fault.ok).ret = true ∧
      (deleteBankDetails "u"
          ⟨some ⟨5, "u", "a", "b", "c", "d", some true⟩, false, true⟩
          ⟨[⟨5, "u", "a", "b", "c", "d", some true⟩], 6⟩
          Fault.ok).db
        = dbDelete ⟨[⟨5, "u", "a", "b", "c", "d", some true⟩], 6⟩ 5 "u") ∧
    (Fault.ok ≠ Fault.ok →
      (deleteBankDetails "u"
          ⟨some ⟨5, "u", "a", "b", "c", "d", some true⟩, false, true⟩
          ⟨[⟨5, "u", "a", "b", "c", "d", some true⟩], 6⟩
          Fault.ok).toasts = [deleteErrorToast] ∧
      (deleteBankDetails "u"
          ⟨some ⟨5, "u", "a", "b", "c", "d", some true⟩, false, true⟩
          ⟨[⟨5, "u", "a", "b", "c", "d", some true⟩], 6⟩
          Fault.ok).ret = false ∧
      (deleteBankDetails "u"
          ⟨some ⟨5, "u", "a", "b", "c", "d", some true⟩, false, true⟩
          ⟨[⟨5, "u", "a", "b", "c", "d", some true⟩], 6⟩
          Fault.ok).state.bankDetails
        = (⟨some ⟨5, "u", "a", "b", "c", "d", some true⟩, false,
            true⟩ : HookState).bankDetails ∧
      (deleteBankDetails "u"
          ⟨some ⟨5, "u", "a", "b", "c", "d", some true⟩, false, true⟩
          ⟨[⟨5, "u", "a", "b", "c", "d", some true⟩], 6⟩
          Fault.ok).state.useForBoth
        = (⟨some ⟨5, "u", "a", "b", "c", "d", some true⟩, false,
            true⟩ : HookState).useForBoth ∧
      (deleteBankDetails "u"
          ⟨some ⟨5, "u", "a", "b", "c", "d", some true⟩, false, true⟩
          ⟨[⟨5, "u", "a", "b", "c", "d", some true⟩], 6⟩
          Fault.ok).db = ⟨[⟨5, "u", "a", "b", "c", "d", some true⟩], 6⟩) :=
  delete_contract "u" ⟨some ⟨5, "u", "a", "b", "c", "d", some true⟩, false, true⟩
    ⟨[⟨5, "u", "a", "b", "c", "d", some true⟩], 6⟩ Fault.ok
    ⟨5, "u", "a", "b", "c", "d", some true⟩ (by decide) rfl

/-- C3: a `saveBankDetails` invocation with a non-empty `userId` in which a
remote step fails — the existence lookup with a non-`PGRST116` error or a
rejection, or the update/insert write — returns `false`, emits exactly one
error notification, leaves `bankDetails`, `useForBoth` and the remote table
untouched, and returns normally rather than re-throwing. -/
theorem save_failure_absorbed (userId : String) (formData : BankFormValues)
    (st : HookState) (db : Db) (fCheck fWrite fRefetch : Fault)
    (h : userId ≠ "")
    (hfail : fCheck = Fault.thrown ∨
      (∃ c, fCheck = Fault.err c ∧ c ≠ "PGRST116") ∨
      ((fCheck = Fault.ok ∨ fCheck = Fault.err "PGRST116") ∧
        fWrite ≠ Fault.ok)) :
    (saveBankDetails userId formData st db fCheck fWrite fRefetch).ret
        = false ∧
    (saveBankDetails userId formData st db fCheck fWrite fRefetch).toasts
        = [saveErrorToast] ∧
    (saveBankDetails userId formData st db fCheck
        fWrite fRefetch).state.bankDetails = st.bankDetails ∧
    (saveBankDetails userId formData st db fCheck
        fWrite fRefetch).state.useForBoth = st.useForBoth ∧
    (saveBankDetails userId formData st db fCheck fWrite fRefetch).db
        = db := by
  unfold saveBankDetails saveWriteStep
  rcases hfail with rfl | ⟨c, rfl, hc⟩ | ⟨hck, hw⟩
  · simp [h]
  · simp [h, hc]
  · rcases hck with rfl | rfl <;> cases fWrite <;>
      first
        | exact absurd rfl hw
        | cases hf : dbFind db userId <;> simp [h, hf]

/-- C3 witness: a concrete save whose insert write is rejected. -/
theorem save_failure_absorbed_witness :
    (saveBankDetails "u" ⟨"a", "b", "c", "d"⟩ ⟨none, false, false⟩ ⟨[], 0⟩
        Fault.ok Fault.thrown Fault.ok).ret = false ∧
    (saveBankDetails "u" ⟨"a", "b", "c", "d"⟩ ⟨none, false, false⟩ ⟨[], 0⟩
        Fault.ok Fault.thrown Fault.ok).toasts = [saveErrorToast] ∧
    (saveBankDetails "u" ⟨"a", "b", "c", "d"⟩ ⟨none, false, false⟩ ⟨[], 0⟩
        Fault.ok Fault.thrown Fault.ok).state.bankDetails
      = (⟨none, false, false⟩ : HookState).bankDetails ∧
    (saveBankDetails "u" ⟨"a", "b", "c", "d"⟩ ⟨none, false, false⟩ ⟨[], 0⟩
        Fault.ok Fault.thrown Fault.ok).state.useForBoth
      = (⟨none, false, false⟩ : HookState).useForBoth ∧
    (saveBankDetails "u" ⟨"a", "b", "c", "d"⟩ ⟨none, false, false⟩ ⟨[], 0⟩
        Fault.ok Fault.thrown Fault.ok).db = ⟨[], 0⟩ :=
  save_failure_absorbed "u" ⟨"a", "b", "c", "d"⟩ ⟨none, false, false⟩ ⟨[], 0⟩
    Fault.ok Fault.thrown Fault.ok (by decide)
    (Or.inr (Or.inr ⟨Or.inl rfl, by decide⟩))

/-- C2: with the existence lookup resolving honestly, `saveBankDetails` for
a non-empty user issues an insert tagged with that user (and never an
update) when the store holds no record for the user, and issues an update
scoped by the record's id and the user (never an insert) when the store
holds exactly that user's record — preserving the user's record count, so
no second record is ever created. -/
theorem save_insert_vs_update (userId : String) (formData : BankFormValues)
    (st : HookState) (db : Db) (fWrite fRefetch : Fault) (h : userId ≠ "") :
    (dbFind db userId = none →
      RemoteCall.insertRow userId (mkPayload formData st.useForBoth)
          ∈ (saveBankDetails userId formData st db Fault.ok
              fWrite fRefetch).calls ∧
      ∀ i u p, RemoteCall.updateRow i u p
          ∉ (saveBankDetails userId formData st db Fault.ok
              fWrite fRefetch).calls) ∧
    (∀ r, db.rows.filter (fun x => x.user_id = userId) = [r] →
      RemoteCall.updateRow r.id userId (mkPayload formData st.useForBoth)
          ∈ (saveBankDetails userId formData st db Fault.ok
              fWrite fRefetch).calls ∧
      (∀ u p, RemoteCall.insertRow u p
          ∉ (saveBankDetails userId formData st db Fault.ok
              fWrite fRefetch).calls) ∧
      ((saveBankDetails userId formData st db Fault.ok
            fWrite fRefetch).db.rows.filter
          (fun x => x.user_id = userId)).length
        = (db.rows.filter (fun x => x.user_id = userId)).length) := by
  constructor
  · intro hnone
    unfold saveBankDetails saveWriteStep
    cases fWrite <;>
      simp [h, hnone, fetch_calls]
  · intro r hr
    have hfind : dbFind db userId = some r :=
      find?_of_filter_singleton _ _ _ hr
    unfold saveBankDetails saveWriteStep
    cases fWrite <;>
      simp [h, hfind, fetch_calls, dbUpdate_filter_length]

/-- C2 witness: the fresh-user branch at a concrete empty store and the
existing-record branch at a concrete one-row store. -/
theorem save_insert_vs_update_witness :
    (RemoteCall.insertRow "u" (mkPayload ⟨"a", "b", "c", "d"⟩ false)
        ∈ (saveBankDetails "u" ⟨"a", "b", "c", "d"⟩ ⟨none, false, false⟩
            ⟨[], 0⟩ Fault.ok Fault.ok Fault.ok).calls) ∧
    (RemoteCall.updateRow 7 "v" (mkPayload ⟨"a", "b", "c", "d"⟩ false)
        ∈ (saveBankDetails "v" ⟨"a", "b", "c", "d"⟩ ⟨none, false, false⟩
            ⟨[⟨7, "v", "x", "x", "x", "x", none⟩], 8⟩
            Fault.ok Fault.ok Fault.ok).calls) :=
  ⟨((save_insert_vs_update "u" ⟨"a", "b", "c", "d"⟩ ⟨none, false, false⟩
      ⟨[], 0⟩ Fault.ok Fault.ok (by decide)).1 (by decide)).1,
   ((save_insert_vs_update "v" ⟨"a", "b", "c", "d"⟩ ⟨none, false, false⟩
      ⟨[⟨7, "v", "x", "x", "x", "x", none⟩], 8⟩ Fault.ok Fault.ok
      (by decide)).2 ⟨7, "v", "x", "x", "x", "x", none⟩ (by decide)).1⟩

/-- C8: for a user with no existing record, saving the form values
`{accountName := "Jane Doe", accountNumber := "12345", routingNumber :=
"67890", bankName := "First Bank"}` with the `useForBoth` state flag `true`
(all remote calls succeeding, including the re-fetch `save` performs) leaves
local state holding a record with exactly those four string fields and flag
`true`. -/
theorem save_fetch_roundtrip (userId : String) (st : HookState) (db : Db)
    (h : userId ≠ "") (hfresh : dbFind db userId = none)
    (hflag : st.useForBoth = true) :
    (saveBankDetails userId ⟨"Jane Doe", "12345", "67890", "First Bank"⟩
        st db Fault.ok Fault.ok Fault.ok).state.bankDetails
      = some ⟨db.nextId, userId, "Jane Doe", "12345", "67890", "First Bank",
          some true⟩ ∧
    (saveBankDetails userId ⟨"Jane Doe", "12345", "67890", "First Bank"⟩
        st db Fault.ok Fault.ok Fault.ok).state.useForBoth = true := by
  have hfound : dbFind
      (dbInsert db userId
        (mkPayload ⟨"Jane Doe", "12345", "67890", "First Bank"⟩
          st.useForBoth)) userId
      = some ⟨db.nextId, userId, "Jane Doe", "12345", "67890", "First Bank",
          some true⟩ := by
    unfold dbFind dbInsert mkPayload
    unfold dbFind at hfresh
    simp [List.find?_append, hfresh, hflag]
  unfold saveBankDetails saveWriteStep fetchBankDetails
  simp [h, hfresh, hfound]

/-- C8 witness: the round trip at a concrete fresh user over an empty
store. -/
theorem save_fetch_roundtrip_witness :
    (saveBankDetails "u1" ⟨"Jane Doe", "12345", "67890", "First Bank"⟩
        ⟨none, false, true⟩ ⟨[], 0⟩ Fault.ok Fault.ok
        Fault.ok).state.bankDetails
      = some ⟨0, "u1", "Jane Doe", "12345", "67890", "First Bank",
          some true⟩ ∧
    (saveBankDetails "u1" ⟨"Jane Doe", "12345", "67890", "First Bank"⟩
        ⟨none, false, true⟩ ⟨[], 0⟩ Fault.ok Fault.ok
        Fault.ok).state.useForBoth = true :=
  save_fetch_roundtrip "u1" ⟨none, false, true⟩ ⟨[], 0⟩ (by decide)
    (by decide) rfl

/-- C9: `PaymentSummary` is a pure function of its single `monthlyRate`
input — its render is the value computed here, with no call list at all —
and shows the rate exactly twice (line item and total), both occurrences
identical, each next to the `DollarSign` currency glyph and formatted with
exactly two digits after the decimal point. -/
theorem paymentSummary_pure_double_render (q : ℚ) :
    renderedAmounts (PaymentSummary q)
        = [⟨"DollarSign", toFixed2 q⟩, ⟨"DollarSign", toFixed2 q⟩] ∧
    (PaymentSummary q).lineItem = (PaymentSummary q).total ∧
    (∃ w d, toFixed2 q = w ++ "." ++ d ∧ d.length = 2) := by
  refine ⟨rfl, rfl,
    (if round (q * 100) < 0 then "-" else "")
      ++ toString ((round (q * 100) : ℤ).natAbs / 100),
    twoDigits ((round (q * 100) : ℤ).natAbs % 100), rfl, rfl⟩

end CareHomeConnect
